import Mathlib

/-!
Verification of the SmartHarvester core against its specification.

The development shallowly embeds the plan-generation, classification,
reconciliation, notification and digest logic of the repository:

* `calculate_plan`            — tracker/plan_calculator.py, `calculate_plan`
* `normalize_crop_name`       — tracker/views.py, `normalize_crop_name`
* `classify_planting`         — tracker/views.py, `index` (lines 513-568)
* `merge_plantings`           — tracker/views.py, `index` (lines 261-290)
* `save_notification` and the guarded emission of reminders
                              — tracker/dynamodb_helper.py and
                                tracker/views.py, `get_notification_summaries`
* `load_user_plantings_model` — tracker/dynamodb_helper.py (second definition)
* `lambda_handler_model`      — scripts/lambda_daily_notifications.py
* `get_user_notification_preference_model`
                              — tracker/dynamodb_helper.py (lines 517-542)

Dates are embedded as integers counting days (Python `datetime.date`
arithmetic is exact day arithmetic; `date + timedelta(days=k)` is `+ k` and
`(d1 - d2).days` is `d1 - d2`).  Python strings are embedded as Lean
strings; the string primitives below match CPython semantics on ASCII
input, which covers the entire crop knowledge base and all identifiers the
program manipulates.
-/

namespace SmartHarvester

/-- Python `str.strip()` on ASCII input: drop leading and trailing
whitespace characters. -/
def pyStrip (s : String) : String :=
  (((s.data.dropWhile Char.isWhitespace).reverse.dropWhile Char.isWhitespace).reverse).asString

/-- Python `str.lower()` on ASCII input. -/
def pyLower (s : String) : String :=
  (s.data.map Char.toLower).asString

/-- Helper for `pyTitle`: the boolean records whether the previous
character was alphabetic. -/
def pyTitleAux : List Char → Bool → List Char
  | [], _ => []
  | c :: cs, prevAlpha =>
    (if c.isAlpha then (if prevAlpha then c.toLower else c.toUpper) else c)
      :: pyTitleAux cs c.isAlpha

/-- Python `str.title()` on ASCII input: the first letter of every
alphabetic run is upper-cased, the rest lower-cased. -/
def pyTitle (s : String) : String :=
  (pyTitleAux s.data false).asString

/-- Python `str.rstrip(\x27s\x27)`: remove every trailing `s`. -/
def pyRstripS (s : String) : String :=
  ((s.data.reverse.dropWhile (fun c => c == 's')).reverse).asString

/-- Does `hay` start with `needle`?  (List-level helper for substring
containment.) -/
def leadsWith [DecidableEq α] : List α → List α → Bool
  | [], _ => true
  | _ :: _, [] => false
  | a :: as, b :: bs => a == b && leadsWith as bs

/-- Python `needle in hay` for strings, at the character-list level:
`needle` occurs contiguously inside `hay`. -/
def containsSub [DecidableEq α] (needle : List α) : List α → Bool
  | [] => leadsWith needle []
  | c :: tl => leadsWith needle (c :: tl) || containsSub needle tl

/-! The data model.

`PlanTask` embeds one entry of a computed care plan.  In the Python source
a plan entry is a dict with keys `task` and `due_date` and, only on the
synthesized harvest entry of the lambda digest job, `is_harvest`; every
consumer reads the flag with `task.get(\x27is_harvest\x27, False)`, so a
missing key reads as `false` and is embedded that way.  `due_date := none`
models a missing or unparseable due date in a stored plan. -/
structure PlanTask where
  task : String
  due_date : Option Int
  is_harvest : Bool
deriving DecidableEq, Repr

/-- One entry of a crop's `care_schedule` in the knowledge base
(`task_title`, `days_after_planting`).  `none` models a missing or empty
`days_after_planting` (skipped by `calculate_plan`, defaulted to `0` by the
lambda's `calculate_planting_plan`). -/
structure TaskTemplate where
  task_title : String
  days_after_planting : Option Int
deriving DecidableEq, Repr

/-- A crop's `harvest_window` (`start`/`end` offsets in days). -/
structure HarvestWindow where
  start : Int
  stop : Int
deriving DecidableEq, Repr

/-- A crop profile of the knowledge base.  `harvest_window := none` models
an absent or empty (falsy) `harvest_window` dict. -/
structure PlantInfo where
  care_schedule : List TaskTemplate
  harvest_window : Option HarvestWindow
deriving DecidableEq, Repr

/-- The knowledge base (`data.json` / `load_crop_data()`): an
insertion-ordered mapping from crop name to profile, embedded as an
association list.  Python dict keys are unique; theorems that need the
lookup to hit a particular profile take that hit as a hypothesis. -/
abbrev KB := List (String × PlantInfo)

/-- Python `plant_data[name]` / `name in plant_data`: first (hence, for a
dict, the only) binding of `name`. -/
def lookupKB (kb : KB) (name : String) : Option PlantInfo :=
  (kb.find? (fun e => e.1 == name)).map (fun e => e.2)

/-- The per-key predicate of `calculate_plan`'s fuzzy-matching loop
(plan_calculator.py lines 56-76): a single pass over the keys, each key
tested for exact lowercase match, singular/plural match (both sides
`rstrip(\x27s\x27)`), or substring containment in either direction. -/
def calcFuzzy (cl : String) (e : String × PlantInfo) : Bool :=
  pyLower e.1 == cl
    || pyRstripS cl == pyRstripS (pyLower e.1)
    || containsSub cl.data (pyLower e.1).data
    || containsSub (pyLower e.1).data cl.data

/-- The profile-resolution part of `calculate_plan`
(plan_calculator.py lines 34-84): exact match on the stripped name, then
title-case match, then first case-insensitive match, then the fuzzy pass.
The legacy `plants`-array structure (lines 79-84) is not part of the
knowledge base and is not modelled. -/
def calcFind (crop : String) (kb : KB) : Option PlantInfo :=
  let c := pyStrip crop
  match lookupKB kb c with
  | some v => some v
  | none =>
    match lookupKB kb (pyTitle c) with
    | some v => some v
    | none =>
      match kb.find? (fun e => pyLower e.1 == pyLower c) with
      | some e => some e.2
      | none => (kb.find? (calcFuzzy (pyLower c))).map (fun e => e.2)

/-- Sort key of `plan.sort(key=lambda x: x.get(\x27due_date\x27, date.today()))`
in plan_calculator.py line 119.  Every appended plan entry carries a
`due_date`, so the `date.today()` default is unreachable; the embedding
uses `getD 0`, which agrees on every reachable input. -/
def dueKey (t : PlanTask) : Int :=
  t.due_date.getD 0

/-- The comparison used by the stable sort of `calculate_plan`. -/
def dueLE (a b : PlanTask) : Bool :=
  decide (dueKey a ≤ dueKey b)

/-- Embedding of `calculate_plan` (tracker/plan_calculator.py).  When the
profile is found, each `care_schedule` entry that has a
`days_after_planting` yields a task with `due_date = planting_date + days`
(entries without one are skipped, line 103); the result is stably sorted
by due date (Python `list.sort` is stable; `List.mergeSort` is the stable
sort of the Lean library).  When the profile is missing, or its
`care_schedule` is empty, the function returns the empty list
(lines 86-95). -/
def calculate_plan (crop_name : String) (planting_date : Int) (kb : KB) : List PlanTask :=
  match calcFind crop_name kb with
  | none => []
  | some info =>
    match info.care_schedule with
    | [] => []
    | _ :: _ =>
      (info.care_schedule.filterMap (fun t =>
        t.days_after_planting.map (fun k =>
          PlanTask.mk t.task_title (some (planting_date + k)) false))).mergeSort dueLE

/-- The mapped (pre-sort) task list of `calculate_plan` for a profile. -/
def templateTasks (info : PlantInfo) (planting_date : Int) : List PlanTask :=
  info.care_schedule.filterMap (fun t =>
    t.days_after_planting.map (fun k =>
      PlanTask.mk t.task_title (some (planting_date + k)) false))

/-- Unfolding lemma: on a profile hit, `calculate_plan` is exactly the
stable sort of the template tasks (also when the schedule is empty). -/
theorem calculate_plan_eq_sort {crop : String} {kb : KB} {info : PlantInfo}
    (h : calcFind crop kb = some info) (d : Int) :
    calculate_plan crop d kb = (templateTasks info d).mergeSort dueLE := by
  unfold calculate_plan templateTasks
  rw [h]
  cases hc : info.care_schedule with
  | nil => simp [hc]
  | cons a tl => simp [hc]

/-! The concrete crop knowledge base, transcribed from `load_crop_data()`
in scripts/lambda_daily_notifications.py (which embeds the same table as
tracker/data.json, per its own comment).  Only the fields the verified
functions read are kept (`care_schedule`, `harvest_window`). -/

/-- Profile of the crop Tomatoes from `load_crop_data()`. -/
def tomatoesInfo : PlantInfo :=
  { care_schedule := [
      ⟨"Start seeds indoors", some 0⟩,
      ⟨"Pot on seedlings", some 21⟩,
      ⟨"Harden off", some 49⟩,
      ⟨"Transplant & stake", some 56⟩,
      ⟨"First fruit set care", some 70⟩,
      ⟨"Begin harvesting", some 90⟩],
    harvest_window := some ⟨90, 140⟩ }

/-- Profile of the crop Radishes from `load_crop_data()`. -/
def radishesInfo : PlantInfo :=
  { care_schedule := [
      ⟨"Sow seeds directly", some 0⟩,
      ⟨"Thin seedlings", some 7⟩,
      ⟨"Harvest early", some 21⟩],
    harvest_window := some ⟨21, 35⟩ }

/-- Profile of the crop Carrots from `load_crop_data()`.  Note that its
`care_schedule` is not listed in due-date order (offsets 0, 14, 28, 21). -/
def carrotsInfo : PlantInfo :=
  { care_schedule := [
      ⟨"Sow seeds directly", some 0⟩,
      ⟨"First thinning", some 14⟩,
      ⟨"Second thinning", some 28⟩,
      ⟨"Weed and mulch", some 21⟩],
    harvest_window := some ⟨60, 90⟩ }

/-- The crop knowledge base of `load_crop_data()`, in source order. -/
def cropKB : KB := [
  ("Basil",
    { care_schedule := [
        ⟨"Start seeds indoors", some 0⟩,
        ⟨"Thin seedlings", some 14⟩,
        ⟨"Transplant outdoors", some 28⟩,
        ⟨"Regular harvest (pinch tips)", some 42⟩],
      harvest_window := some ⟨42, 120⟩ }),
  ("Bell Peppers",
    { care_schedule := [
        ⟨"Sow seeds indoors", some 0⟩,
        ⟨"Pot on seedlings", some 21⟩,
        ⟨"Harden off seedlings", some 49⟩,
        ⟨"Transplant outdoors", some 56⟩],
      harvest_window := some ⟨80, 120⟩ }),
  ("Carrots", carrotsInfo),
  ("Cucumbers",
    { care_schedule := [
        ⟨"Sow or transplant seedlings", some 0⟩,
        ⟨"Install trellis", some 7⟩,
        ⟨"First trellis training", some 14⟩,
        ⟨"Begin harvesting", some 50⟩],
      harvest_window := some ⟨50, 100⟩ }),
  ("Lettuce",
    { care_schedule := [
        ⟨"Sow seeds", some 0⟩,
        ⟨"Thin seedlings", some 10⟩,
        ⟨"Begin baby-leaf harvest", some 21⟩,
        ⟨"Full head harvest", some 45⟩],
      harvest_window := some ⟨21, 60⟩ }),
  ("Mint",
    { care_schedule := [
        ⟨"Pot or transplant", some 0⟩,
        ⟨"Pinch back regularly", some 14⟩,
        ⟨"Divide in spring", some 365⟩],
      harvest_window := some ⟨21, 9999⟩ }),
  ("Potatoes",
    { care_schedule := [
        ⟨"Plant seed pieces", some 0⟩,
        ⟨"First hill", some 21⟩,
        ⟨"Second hill", some 42⟩,
        ⟨"Begin new potato harvest", some 70⟩,
        ⟨"Main harvest", some 100⟩],
      harvest_window := some ⟨70, 120⟩ }),
  ("Radishes", radishesInfo),
  ("Rosemary",
    { care_schedule := [
        ⟨"Transplant or pot", some 0⟩,
        ⟨"Light pruning", some 60⟩,
        ⟨"Annual pruning", some 365⟩],
      harvest_window := some ⟨60, 9999⟩ }),
  ("Spinach",
    { care_schedule := [
        ⟨"Sow seeds directly", some 0⟩,
        ⟨"Thin seedlings", some 14⟩,
        ⟨"Baby leaf harvest", some 28⟩,
        ⟨"Full harvest", some 45⟩],
      harvest_window := some ⟨28, 60⟩ }),
  ("Tomatoes", tomatoesInfo),
  ("Zucchini",
    { care_schedule := [
        ⟨"Direct sow or transplant", some 0⟩,
        ⟨"First flower thinning", some 35⟩,
        ⟨"Begin frequent harvest", some 45⟩],
      harvest_window := some ⟨45, 90⟩ })]

/-! `normalize_crop_name` (tracker/views.py lines 64-122). -/

/-- The singular/plural test of views' `normalize_crop_name`
(lines 98-107): both lowered names with trailing `s` removed must be
non-empty and equal. -/
def pluralMatch (cl : String) (keyLower : String) : Bool :=
  !(pyRstripS cl == "") && !(pyRstripS keyLower == "") && pyRstripS cl == pyRstripS keyLower

/-- The five ordered matching steps of `normalize_crop_name`, applied to
the already stripped name: exact, title-case, case-insensitive,
singular/plural, substring in either direction; each fuzzy step is a
separate full pass over the keys, first match winning.  Returns the
matched knowledge-base key, or `none`. -/
def normalizeSteps (c : String) (kb : KB) : Option String :=
  if (lookupKB kb c).isSome then some c
  else if (lookupKB kb (pyTitle c)).isSome then some (pyTitle c)
  else
    match kb.find? (fun e => pyLower e.1 == pyLower c) with
    | some e => some e.1
    | none =>
      match kb.find? (fun e => pluralMatch (pyLower c) (pyLower e.1)) with
      | some e => some e.1
      | none =>
        (kb.find? (fun e =>
          containsSub (pyLower c).data (pyLower e.1).data
            || containsSub (pyLower e.1).data (pyLower c).data)).map (fun e => e.1)

/-- Embedding of `normalize_crop_name` (tracker/views.py): an empty name
is returned unchanged; otherwise the stripped name is resolved through the
five steps, and when none matches the stripped original is returned
(lines 118-122) — there is no distinguished not-found value. -/
def normalize_crop_name (crop_name : String) (kb : KB) : String :=
  if crop_name == "" then crop_name
  else
    match normalizeSteps (pyStrip crop_name) kb with
    | some key => key
    | none => pyStrip crop_name

/-! The stored `Planting` record (the attributes the verified code reads).
`planting_date := none` models a missing, empty or unparseable
`planting_date` string; the Python code treats all three the same way on
the paths modelled here (parse failures are caught and the record is
handled as if the date were absent). -/
structure Planting where
  planting_id : Option String
  user_id : Option String
  username : Option String
  crop_name : String
  planting_date : Option Int
  plan : List PlanTask
deriving DecidableEq, Repr

/-- Embedding of the lambda digest job's `calculate_planting_plan`
(scripts/lambda_daily_notifications.py lines 71-153).  When the stored
planting already carries a non-empty plan, a truthy parseable
`planting_date`, and at least one plan entry with a due date, the stored
entries with a due date are returned unchanged (lines 76-91).  Otherwise a
fresh plan is computed: empty crop name or missing date yields `[]`; the
profile is resolved by title-casing the raw name, then by a
case-insensitive pass; template tasks get
`due_date = planting_date + days_after_planting` with a default offset of
`0` (line 130), in schedule order, unsorted; and when the profile has a
truthy `harvest_window` one synthesized `Harvest` task with
`is_harvest = true` and `due_date = planting_date + harvest_window.start`
is appended last (lines 139-148). -/
def calculate_planting_plan (pl : Planting) (kb : KB) : List PlanTask :=
  let kept := pl.plan.filter (fun t => t.due_date.isSome)
  if !pl.plan.isEmpty && pl.planting_date.isSome && !kept.isEmpty then kept
  else if pl.crop_name == "" then []
  else
    match pl.planting_date with
    | none => []
    | some d =>
      let found : Option PlantInfo :=
        match lookupKB kb (pyTitle pl.crop_name) with
        | some v => some v
        | none => (kb.find? (fun e => pyLower e.1 == pyLower pl.crop_name)).map (fun e => e.2)
      match found with
      | none => []
      | some info =>
        let base := info.care_schedule.map (fun t =>
          PlanTask.mk t.task_title (some (d + t.days_after_planting.getD 0)) false)
        match info.harvest_window with
        | none => base
        | some w => base ++ [PlanTask.mk "Harvest" (some (d + w.start)) true]

/-! Properties of the plan-generation comparison. -/

/-- The due-date comparison is transitive. -/
theorem dueLE_trans (a b c : PlanTask) (hab : dueLE a b) (hbc : dueLE b c) : dueLE a c := by
  simp only [dueLE, decide_eq_true_eq] at *
  omega

/-- The due-date comparison is total. -/
theorem dueLE_total (a b : PlanTask) : dueLE a b || dueLE b a := by
  simp only [dueLE]
  by_cases h : dueKey a ≤ dueKey b
  · simp [h]
  · simp [le_of_not_le h]

/-- The conclusion bundle for claim C1 as amended: for a knowledge-base
profile, `calculate_plan` returns the template tasks
(`due_date = planting_date + day_offset`) stably sorted by due date, with
no harvest task and no task marked `is_harvest`; the synthesized harvest
task (`is_harvest = true`, `due_date = planting_date + harvest_window.start`)
exists only in the digest lambda's `calculate_planting_plan`, which appends
it last after the template tasks in schedule order. -/
def planGenSpec (kb : KB) (name : String) (info : PlantInfo) (d : Int) (w : HarvestWindow) : Prop :=
  List.Pairwise (fun a b => dueKey a ≤ dueKey b) (calculate_plan name d kb)
  ∧ (calculate_plan name d kb).Perm (templateTasks info d)
  ∧ (∀ a b, dueLE a b = true → List.Sublist [a, b] (templateTasks info d) →
      List.Sublist [a, b] (calculate_plan name d kb))
  ∧ (∀ t ∈ calculate_plan name d kb, t.is_harvest = false)
  ∧ (∀ t ∈ templateTasks info d, ∃ tm ∈ info.care_schedule, ∃ k : Int,
      tm.days_after_planting = some k ∧ t = PlanTask.mk tm.task_title (some (d + k)) false)
  ∧ calculate_planting_plan (Planting.mk none none none name (some d) []) kb
      = info.care_schedule.map (fun t =>
          PlanTask.mk t.task_title (some (d + t.days_after_planting.getD 0)) false)
        ++ [PlanTask.mk "Harvest" (some (d + w.start)) true]
  ∧ (calculate_planting_plan (Planting.mk none none none name (some d) []) kb).filter
      (fun t => t.is_harvest)
      = [PlanTask.mk "Harvest" (some (d + w.start)) true]

/-- C1 (amended).  For every crop profile present in the knowledge base
(exact-name hit for `calculate_plan`, title-case hit for the lambda) and
every planting date, the generated plans satisfy `planGenSpec`:
`calculate_plan` yields the sorted harvest-free template tasks, and the
lambda's `calculate_planting_plan` appends the single synthesized harvest
task with `due_date = planting_date + harvest_window.start`. -/
theorem c1_plan_generation (kb : KB) (name : String) (info : PlantInfo) (d : Int)
    (w : HarvestWindow)
    (hstrip : pyStrip name = name)
    (hexact : lookupKB kb name = some info)
    (htitle : lookupKB kb (pyTitle name) = some info)
    (hne : name ≠ "")
    (hw : info.harvest_window = some w) :
    planGenSpec kb name info d w := by
  have hfind : calcFind name kb = some info := by
    simp [calcFind, hstrip, hexact]
  have hplan := calculate_plan_eq_sort hfind d
  have hnameF : (name == "") = false := by
    simpa using hne
  have hlambda : calculate_planting_plan (Planting.mk none none none name (some d) []) kb
      = info.care_schedule.map (fun t =>
          PlanTask.mk t.task_title (some (d + t.days_after_planting.getD 0)) false)
        ++ [PlanTask.mk "Harvest" (some (d + w.start)) true] := by
    simp [calculate_planting_plan, hnameF, htitle, hw]
  refine ⟨?_, ?_, ?_, ?_, ?_, hlambda, ?_⟩
  · rw [hplan]
    have hs := List.sorted_mergeSort dueLE_trans dueLE_total (templateTasks info d)
    exact hs.imp (fun h => by simpa [dueLE, decide_eq_true_eq] using h)
  · rw [hplan]
    exact List.mergeSort_perm _ _
  · intro a b hab hsub
    rw [hplan]
    exact List.pair_sublist_mergeSort dueLE_trans dueLE_total hab hsub
  · intro t ht
    rw [hplan] at ht
    rw [List.mem_mergeSort] at ht
    simp only [templateTasks, List.mem_filterMap, Option.map_eq_some'] at ht
    obtain ⟨tm, _, k, _, rfl⟩ := ht
    rfl
  · intro t ht
    simp only [templateTasks, List.mem_filterMap, Option.map_eq_some'] at ht
    obtain ⟨tm, hmem, k, hk, rfl⟩ := ht
    exact ⟨tm, hmem, k, hk, rfl⟩
  · rw [hlambda, List.filter_append]
    have hbase : (info.care_schedule.map (fun t =>
        PlanTask.mk t.task_title (some (d + t.days_after_planting.getD 0)) false)).filter
        (fun t => t.is_harvest) = [] := by
      rw [List.filter_eq_nil_iff]
      intro a ha
      rw [List.mem_map] at ha
      obtain ⟨tm, _, rfl⟩ := ha
      simp
    rw [hbase]
    rfl

/-- Witness for C1: the Tomatoes profile of the shipped knowledge base
with planting date 0, hypotheses discharged by evaluation. -/
theorem c1_plan_generation_witness :
    pyStrip "Tomatoes" = "Tomatoes"
    ∧ lookupKB cropKB "Tomatoes" = some tomatoesInfo
    ∧ tomatoesInfo.harvest_window = some ⟨90, 140⟩
    ∧ planGenSpec cropKB "Tomatoes" tomatoesInfo 0 ⟨90, 140⟩ :=
  ⟨by decide, by decide, rfl,
    c1_plan_generation cropKB "Tomatoes" tomatoesInfo 0 ⟨90, 140⟩
      (by decide) (by decide) (by decide) (by decide) rfl⟩

/-- Counterexample to C1 as stated: for the Tomatoes profile of the
shipped knowledge base, `calculate_plan` returns six tasks and none of
them carries `is_harvest = true`, while the claim demands exactly one.
(The synthesized harvest task exists only in the lambda digest job's
separate plan builder.) -/
theorem c1_counterexample :
    (calculate_plan "Tomatoes" 0 cropKB).length = 6
    ∧ (calculate_plan "Tomatoes" 0 cropKB).countP (fun t => t.is_harvest) = 0 := by
  have hfind : calcFind "Tomatoes" cropKB = some tomatoesInfo := by decide
  have hplan := calculate_plan_eq_sort hfind 0
  constructor
  · rw [hplan, List.length_mergeSort]
    decide
  · rw [hplan, (List.mergeSort_perm (templateTasks tomatoesInfo 0) dueLE).countP_eq]
    decide

/-- C9 (confirmed).  `calculate_plan` is a pure function of its inputs:
two runs on identical inputs agree in length and position by position in
task title and due date (value equality).  In the source the only ambient
state the function could consult — `date.today()` as the sort-key default
on line 119 — is unreachable, since every appended entry carries a
`due_date`; dict iteration order is the fixed insertion order.  The
embedding therefore is a function, and idempotence is definitional. -/
theorem c9_idempotent (name : String) (d : Int) (kb : KB) :
    (calculate_plan name d kb).length = (calculate_plan name d kb).length
    ∧ (calculate_plan name d kb).map (fun t => t.task)
        = (calculate_plan name d kb).map (fun t => t.task)
    ∧ (calculate_plan name d kb).map (fun t => t.due_date)
        = (calculate_plan name d kb).map (fun t => t.due_date) :=
  ⟨rfl, rfl, rfl⟩

/-- C5 (amended).  For a raw crop name that no normalization step matches,
`calculate_plan` returns the empty plan — the empty list, not a
distinguished NotFound value — and views' `normalize_crop_name` returns
the stripped input name unchanged; no default crop profile is ever
substituted. -/
theorem c5_unmatched_crop (name : String) (d : Int) (kb : KB)
    (hcalc : calcFind name kb = none)
    (hviews : normalizeSteps (pyStrip name) kb = none)
    (hne : name ≠ "") :
    calculate_plan name d kb = [] ∧ normalize_crop_name name kb = pyStrip name := by
  have hnameF : (name == "") = false := by
    simpa using hne
  constructor
  · unfold calculate_plan
    rw [hcalc]
  · unfold normalize_crop_name
    rw [hnameF, hviews]
    simp

/-- Witness for C5: the name `Quinoa` matches no profile of the shipped
knowledge base under any step. -/
theorem c5_unmatched_crop_witness :
    calcFind "Quinoa" cropKB = none
    ∧ normalizeSteps (pyStrip "Quinoa") cropKB = none
    ∧ calculate_plan "Quinoa" 3 cropKB = []
    ∧ normalize_crop_name "Quinoa" cropKB = pyStrip "Quinoa" := by
  refine ⟨by decide, by decide, ?_⟩
  have h := c5_unmatched_crop "Quinoa" 3 cropKB (by decide) (by decide) (by decide)
  exact h

/-- Counterexample to C5 as stated: for the unmatched crop name `Quinoa`,
`calculate_plan` hands its caller the empty plan (indistinguishable from a
crop with an empty schedule) instead of an explicit NotFound result, and
`normalize_crop_name` returns the input name unchanged. -/
theorem c5_counterexample :
    calcFind "Quinoa" cropKB = none
    ∧ calculate_plan "Quinoa" 0 cropKB = []
    ∧ normalize_crop_name "Quinoa" cropKB = "Quinoa" := by
  refine ⟨by decide, rfl, by decide⟩

/-! The urgency classifier (tracker/views.py, `index`, lines 513-568). -/

/-- The derived urgency bucket of a planting. -/
inductive Window where
  | Ongoing
  | Upcoming
  | Past
deriving DecidableEq, Repr

/-- The harvest due date the view determines for a plan (lines 513-530):
the due date of the last plan entry that has a valid one (the plan is
scanned in reverse; entries whose due date is missing or unparseable are
skipped).  `none` when no entry has a valid due date. -/
def findHarvestDate (plan : List PlanTask) : Option Int :=
  match plan.reverse.find? (fun t => t.due_date.isSome) with
  | some t => t.due_date
  | none => none

/-- Embedding of the classification of lines 532-568: with
`days_until_harvest = harvest_date - today`, negative yields `Past`, at
most 7 yields `Upcoming`, otherwise `Ongoing`; a plan without a
determinable harvest date yields `Ongoing`. -/
def classify_planting (plan : List PlanTask) (today : Int) : Window :=
  match findHarvestDate plan with
  | none => Window.Ongoing
  | some h =>
    if h - today < 0 then Window.Past
    else if h - today ≤ 7 then Window.Upcoming
    else Window.Ongoing

/-- C2 (confirmed).  Classification is total and depends only on the
determined harvest due date: with `delta = harvest - today`, `delta < 0`
gives `Past`, `0 ≤ delta ≤ 7` gives `Upcoming` (so `delta = 7` is
`Upcoming`), `delta > 7` gives `Ongoing` (so `delta = 8` is `Ongoing`),
and a plan with no determinable harvest date is `Ongoing`, never
`Upcoming` or `Past`. -/
theorem c2_classifier (plan : List PlanTask) (today : Int) :
    (findHarvestDate plan = none → classify_planting plan today = Window.Ongoing)
    ∧ (∀ h, findHarvestDate plan = some h →
        ((h - today < 0 → classify_planting plan today = Window.Past)
          ∧ (0 ≤ h - today → h - today ≤ 7 → classify_planting plan today = Window.Upcoming)
          ∧ (7 < h - today → classify_planting plan today = Window.Ongoing)))
    ∧ (∀ plan2, findHarvestDate plan2 = findHarvestDate plan →
        classify_planting plan2 today = classify_planting plan today) := by
  refine ⟨?_, ?_, ?_⟩
  · intro h0
    simp [classify_planting, h0]
  · intro h hh
    refine ⟨?_, ?_, ?_⟩
    · intro h1
      simp only [classify_planting, hh]
      rw [if_pos h1]
    · intro h1 h2
      simp only [classify_planting, hh]
      rw [if_neg (by omega), if_pos h2]
    · intro h1
      simp only [classify_planting, hh]
      rw [if_neg (by omega), if_neg (by omega)]
  · intro plan2 he
    simp only [classify_planting, he]

/-- Witness for C2: the boundary cases of the spec (harvest in 7 days is
Upcoming, in 8 days Ongoing, yesterday Past, no harvest date Ongoing),
obtained by applying the classifier theorem at concrete plans. -/
theorem c2_classifier_witness :
    findHarvestDate [PlanTask.mk "x" none false] = none
    ∧ classify_planting [PlanTask.mk "x" none false] 0 = Window.Ongoing
    ∧ classify_planting [PlanTask.mk "Harvest" (some 7) true] 0 = Window.Upcoming
    ∧ classify_planting [PlanTask.mk "Harvest" (some 8) true] 0 = Window.Ongoing
    ∧ classify_planting [PlanTask.mk "Harvest" (some (-1)) true] 0 = Window.Past :=
  ⟨by decide,
    (c2_classifier [PlanTask.mk "x" none false] 0).1 (by decide),
    (((c2_classifier [PlanTask.mk "Harvest" (some 7) true] 0).2.1 7 (by decide)).2.1
      (by decide) (by decide)),
    (((c2_classifier [PlanTask.mk "Harvest" (some 8) true] 0).2.1 8 (by decide)).2.2
      (by decide)),
    (((c2_classifier [PlanTask.mk "Harvest" (some (-1)) true] 0).2.1 (-1) (by decide)).1
      (by decide))⟩

/-! The dual-store reconciliation (tracker/views.py, `index`,
lines 261-290): DynamoDB results first, then the session entries for the
same user whose truthy `planting_id` is not already among the DynamoDB
ids.  The id set is computed once, before the loop. -/

/-- Python truthiness of an optional string attribute (absent and empty
are falsy). -/
def pyTruthyStr : Option String → Bool
  | none => false
  | some s => !(s == "")

/-- The truthy planting id of a record, if any (mirrors the comprehension
of line 276, which keeps only truthy ids). -/
def truthyId (p : Planting) : Option String :=
  if pyTruthyStr p.planting_id then p.planting_id else none

/-- The per-user session filter of lines 270-273:
`p.get(user_id) == user_id or p.get(username) == username`. -/
def sessionFilter (uid : String) (uname : Option String) (p : Planting) : Bool :=
  p.user_id == some uid || p.username == uname

/-- The DynamoDB id set of line 276 (as a list; membership is what the
code uses it for). -/
def dynamoIds (dynamo : List Planting) : List String :=
  dynamo.filterMap truthyId

/-- The append condition of lines 277-281: the session entry has a truthy
`planting_id` that is not among the DynamoDB ids. -/
def keepSession (dynamo : List Planting) (p : Planting) : Bool :=
  match p.planting_id with
  | none => false
  | some s => !(s == "") && !((dynamoIds dynamo).contains s)

/-- Embedding of the merge of lines 261-290 for a signed-in user:
DynamoDB results, then the filtered session entries that pass
`keepSession`. -/
def merge_plantings (dynamo sess : List Planting) (uid : String) (uname : Option String) :
    List Planting :=
  dynamo ++ (sess.filter (sessionFilter uid uname)).filter (keepSession dynamo)

/-- Two records do not collide on a truthy planting id. -/
def idsDisjoint (p q : Planting) : Prop :=
  truthyId p = none ∨ truthyId q = none ∨ truthyId p ≠ truthyId q

instance (p q : Planting) : Decidable (idsDisjoint p q) := by
  unfold idsDisjoint
  infer_instance

/-- A truthy id comes from a non-empty stored `planting_id`. -/
theorem truthyId_eq_some {p : Planting} {s : String} (h : truthyId p = some s) :
    p.planting_id = some s ∧ s ≠ "" := by
  unfold truthyId at h
  cases hid : p.planting_id with
  | none => rw [hid] at h; simp [pyTruthyStr] at h
  | some t =>
    rw [hid] at h
    by_cases ht : t = ""
    · subst ht
      simp [pyTruthyStr] at h
    · simp [pyTruthyStr, ht] at h
      exact ⟨by rw [h], by rw [← h]; exact ht⟩

/-- C3 (amended).  Provided the durable results and the session cache each
carry pairwise distinct truthy planting ids, the merged view starts from
the durable results, appends only session entries for the same user whose
truthy `planting_id` is absent from the durable ids, contains no two
entries with the same truthy planting id, and any entry whose id is also a
durable id is the durable record itself.  (As stated the claim is false:
the id set of the durable results is computed once, so a cache holding two
entries with the same new id yields a duplicated merged list — see the
counterexample.) -/
theorem c3_reconcile (dynamo sess : List Planting) (uid : String) (uname : Option String)
    (hd : dynamo.Pairwise idsDisjoint)
    (hs : sess.Pairwise idsDisjoint) :
    (∃ rest, merge_plantings dynamo sess uid uname = dynamo ++ rest
      ∧ ∀ p ∈ rest, p ∈ sess ∧ sessionFilter uid uname p = true
          ∧ ∃ s, p.planting_id = some s ∧ s ≠ "" ∧ s ∉ dynamoIds dynamo)
    ∧ (merge_plantings dynamo sess uid uname).Pairwise idsDisjoint
    ∧ (∀ q ∈ merge_plantings dynamo sess uid uname, ∀ s, truthyId q = some s →
        s ∈ dynamoIds dynamo → q ∈ dynamo) := by
  have keepSpec : ∀ p, keepSession dynamo p = true →
      ∃ s, p.planting_id = some s ∧ s ≠ "" ∧ s ∉ dynamoIds dynamo := by
    intro p hp
    unfold keepSession at hp
    cases hid : p.planting_id with
    | none => rw [hid] at hp; cases hp
    | some s =>
      rw [hid] at hp
      simp only [Bool.and_eq_true, Bool.not_eq_true'] at hp
      refine ⟨s, rfl, ?_, ?_⟩
      · simpa using hp.1
      · simpa using hp.2
  have truthy_of : ∀ p s, p.planting_id = some s → s ≠ "" → truthyId p = some s := by
    intro p s hid hne
    unfold truthyId
    rw [hid]
    simp [pyTruthyStr, hne]
  refine ⟨⟨(sess.filter (sessionFilter uid uname)).filter (keepSession dynamo), rfl, ?_⟩, ?_, ?_⟩
  · intro p hp
    have hkeep : keepSession dynamo p = true := List.of_mem_filter hp
    have hp3 : p ∈ sess.filter (sessionFilter uid uname) := List.mem_of_mem_filter hp
    exact ⟨List.mem_of_mem_filter hp3, List.of_mem_filter hp3, keepSpec p hkeep⟩
  · refine List.pairwise_append.mpr ⟨hd, ?_, ?_⟩
    · exact hs.sublist ((List.filter_sublist _).trans (List.filter_sublist _))
    · intro a ha b hb
      cases hta : truthyId a with
      | none => exact Or.inl hta
      | some s =>
        refine Or.inr (Or.inr ?_)
        have hkeep : keepSession dynamo b = true := List.of_mem_filter hb
        obtain ⟨t, hbt, htne, htno⟩ := keepSpec b hkeep
        have htb : truthyId b = some t := truthy_of b t hbt htne
        rw [hta, htb]
        intro hst
        have hsd : s ∈ dynamoIds dynamo := List.mem_filterMap.mpr ⟨a, ha, hta⟩
        rw [Option.some_inj] at hst
        rw [hst] at hsd
        exact htno hsd
  · intro q hq s hqs hsd
    rcases List.mem_append.mp hq with hqd | hqk
    · exact hqd
    · exfalso
      have hkeep : keepSession dynamo q = true := List.of_mem_filter hqk
      obtain ⟨t, hqt, htne, htno⟩ := keepSpec q hkeep
      have := (truthyId_eq_some hqs).1
      rw [this] at hqt
      rw [Option.some_inj] at hqt
      rw [hqt] at hsd
      exact htno hsd

/-- Durable copy of planting `p1` (for the reconciliation scenarios). -/
def pDur : Planting :=
  Planting.mk (some "p1") (some "u1") none "Tomatoes" (some 0) []

/-- Stale session copy of planting `p1` (same id, different payload). -/
def pStale : Planting :=
  Planting.mk (some "p1") (some "u1") none "Tomatoes" (some 0) [PlanTask.mk "old" (some 1) false]

/-- Fresh session-only planting `p2`. -/
def pNew : Planting :=
  Planting.mk (some "p2") (some "u1") none "Basil" (some 5) []

/-- A second distinct session record that reuses the id `p2`. -/
def pNewDup : Planting :=
  Planting.mk (some "p2") (some "u1") none "Mint" (some 6) []

/-- Witness for C3: the spec's reconciliation scenario — durable `p1`,
session holding a stale `p1` and a new `p2` — merged by applying the
reconciliation theorem; the merged list is exactly the durable `p1`
followed by the session `p2`. -/
theorem c3_reconcile_witness :
    ([pDur].Pairwise idsDisjoint
    ∧ [pStale, pNew].Pairwise idsDisjoint
    ∧ ((∃ rest, merge_plantings [pDur] [pStale, pNew] "u1" none = [pDur] ++ rest
        ∧ ∀ p ∈ rest, p ∈ [pStale, pNew] ∧ sessionFilter "u1" none p = true
            ∧ ∃ s, p.planting_id = some s ∧ s ≠ "" ∧ s ∉ dynamoIds [pDur])
      ∧ (merge_plantings [pDur] [pStale, pNew] "u1" none).Pairwise idsDisjoint
      ∧ (∀ q ∈ merge_plantings [pDur] [pStale, pNew] "u1" none, ∀ s, truthyId q = some s →
          s ∈ dynamoIds [pDur] → q ∈ [pDur])))
    ∧ merge_plantings [pDur] [pStale, pNew] "u1" none = [pDur, pNew] :=
  ⟨⟨by decide, by decide,
    c3_reconcile [pDur] [pStale, pNew] "u1" none (by decide) (by decide)⟩,
    by decide⟩

/-- Counterexample to C3 as stated: a session cache holding two distinct
entries that both carry the new id `p2` produces a merged list with two
entries of planting id `p2` — the durable id set is computed before the
loop and never updated, so the claimed no-duplicate invariant fails. -/
theorem c3_counterexample :
    (merge_plantings [pDur] [pNew, pNewDup] "u1" none).countP
      (fun p => p.planting_id == some "p2") = 2 := by
  decide

/-! The notification engine.

`save_notification` (tracker/dynamodb_helper.py lines 627-703) on its
durable-store success path (`USE_LOCAL_NOTIFICATIONS` unset, `put_item`
succeeds): it builds a fresh item — `uuid4` is passed in as the `fresh`
parameter — copies the metadata entries into item attributes, writes it
unconditionally and returns the fresh id.  The function performs no
duplicate check of any kind.  The duplicate check lives in the caller,
`get_notification_summaries` (tracker/views.py lines 2484-2552): before
emitting a reminder it searches the loaded notification list for an entry
with the same key and only calls `save_notification` when none is found.
The 50-item page limit of `load_user_notifications` is not modelled: the
loaded list is the user's full stored list. -/

/-- A stored notification (the attributes the dedupe logic reads; metadata
entries become item attributes on save). -/
structure Notification where
  notification_id : String
  user_id : String
  notification_type : String
  title : String
  message : String
  planting_id : Option String
  crop_name : Option String
  task : Option String
  due_date : Option String
  harvest_date : Option String
deriving DecidableEq, Repr

/-- The arguments of one `save_notification` call (metadata flattened). -/
structure NotifInput where
  user_id : String
  notification_type : String
  title : String
  message : String
  planting_id : Option String
  crop_name : Option String
  task : Option String
  due_date : Option String
  harvest_date : Option String
deriving DecidableEq, Repr

/-- The item `save_notification` builds (lines 656-674). -/
def mkNotification (fresh : String) (i : NotifInput) : Notification :=
  Notification.mk fresh i.user_id i.notification_type i.title i.message
    i.planting_id i.crop_name i.task i.due_date i.harvest_date

/-- Embedding of `save_notification` on the durable-store success path:
the item is written unconditionally and the fresh id returned.  There is
no duplicate check and no Skipped outcome in this function. -/
def save_notification (store : List Notification) (fresh : String) (i : NotifInput) :
    List Notification × Option String :=
  (store ++ [mkNotification fresh i], some fresh)

/-- The step-reminder duplicate test of views.py lines 2488-2492: same
type, crop name, due date and task. -/
def stepMatches (crop taskName due : String) (n : Notification) : Bool :=
  n.notification_type == "step_reminder" && n.crop_name == some crop
    && n.due_date == some due && n.task == some taskName

/-- The harvest-reminder duplicate test of views.py lines 2529-2532: same
type, crop name and harvest date. -/
def harvestMatches (crop hdate : String) (n : Notification) : Bool :=
  n.notification_type == "harvest_reminder" && n.crop_name == some crop
    && n.harvest_date == some hdate

/-- The guarded step-reminder emission of `get_notification_summaries`
(views.py lines 2484-2511): load the user's notifications, and call
`save_notification` only when no loaded entry matches the key. -/
def emit_step_reminder (store : List Notification) (fresh : String)
    (uid crop taskName due : String) (pid : Option String) (title msg : String) :
    List Notification × Option String :=
  let loaded := store.filter (fun n => n.user_id == uid)
  if (loaded.filter (stepMatches crop taskName due)).isEmpty then
    save_notification store fresh
      (NotifInput.mk uid "step_reminder" title msg pid (some crop) (some taskName)
        (some due) none)
  else (store, none)

/-- The guarded harvest-reminder emission of `get_notification_summaries`
(views.py lines 2516-2552). -/
def emit_harvest_reminder (store : List Notification) (fresh : String)
    (uid crop hdate : String) (pid : Option String) (title msg : String) :
    List Notification × Option String :=
  let loaded := store.filter (fun n => n.user_id == uid)
  if (loaded.filter (harvestMatches crop hdate)).isEmpty then
    save_notification store fresh
      (NotifInput.mk uid "harvest_reminder" title msg pid (some crop) none none
        (some hdate))
  else (store, none)

/-- A concrete step-reminder emission request. -/
def sampleReminder : NotifInput :=
  NotifInput.mk "u1" "step_reminder" "Water - Tomatoes" "Water for Tomatoes is due"
    (some "p1") (some "Tomatoes") (some "Water") (some "2025-01-08") none

/-- Counterexample to C4 as stated: calling `save_notification` itself a
second time with the identical reminder arguments returns a second fresh
notification id — not Skipped — and the user's stored notification count
rises by two across the two calls.  The function performs no
deduplication; that is done by its caller. -/
theorem c4_counterexample :
    (save_notification [] "id1" sampleReminder).2 = some "id1"
    ∧ (save_notification (save_notification [] "id1" sampleReminder).1 "id2"
        sampleReminder).2 = some "id2"
    ∧ ((save_notification (save_notification [] "id1" sampleReminder).1 "id2"
        sampleReminder).1.countP (fun n => n.user_id == "u1")) = 2 := by
  decide

/-- C4 (amended).  Reminder deduplication is implemented in the caller:
`get_notification_summaries` emits a reminder only when the freshly loaded
notification list holds no entry with the same dedupe key — (type, crop,
due date, task) for step reminders, (type, crop, harvest date) for harvest
reminders.  A second guarded emission with the same key after the first is
stored is a no-op returning no id, and the user's count rises by exactly 1
across the two; `save_notification` itself always writes a fresh item and
returns its id, for every notification type — so action notifications,
emitted directly without a guard, are never deduplicated. -/
theorem c4_dedupe (store : List Notification) (uid crop taskName due hdate : String)
    (fresh1 fresh2 : String) (pid : Option String) (title msg : String)
    (hnoneS : (store.filter (fun n => n.user_id == uid)).filter
        (stepMatches crop taskName due) = [])
    (hnoneH : (store.filter (fun n => n.user_id == uid)).filter
        (harvestMatches crop hdate) = []) :
    ((emit_step_reminder store fresh1 uid crop taskName due pid title msg).2 = some fresh1
      ∧ (emit_step_reminder (emit_step_reminder store fresh1 uid crop taskName due pid
            title msg).1 fresh2 uid crop taskName due pid title msg).2 = none
      ∧ (emit_step_reminder (emit_step_reminder store fresh1 uid crop taskName due pid
            title msg).1 fresh2 uid crop taskName due pid title msg).1
          = (emit_step_reminder store fresh1 uid crop taskName due pid title msg).1
      ∧ (emit_step_reminder store fresh1 uid crop taskName due pid title msg).1.countP
            (fun n => n.user_id == uid)
          = store.countP (fun n => n.user_id == uid) + 1)
    ∧ ((emit_harvest_reminder store fresh1 uid crop hdate pid title msg).2 = some fresh1
      ∧ (emit_harvest_reminder (emit_harvest_reminder store fresh1 uid crop hdate pid
            title msg).1 fresh2 uid crop hdate pid title msg).2 = none)
    ∧ (∀ st : List Notification, ∀ f : String, ∀ i : NotifInput,
        (save_notification st f i).1 = st ++ [mkNotification f i]
          ∧ (save_notification st f i).2 = some f) := by
  have hstep1 : emit_step_reminder store fresh1 uid crop taskName due pid title msg
      = (store ++ [mkNotification fresh1
          (NotifInput.mk uid "step_reminder" title msg pid (some crop) (some taskName)
            (some due) none)], some fresh1) := by
    simp only [emit_step_reminder]
    rw [hnoneS]
    rfl
  have hharv1 : emit_harvest_reminder store fresh1 uid crop hdate pid title msg
      = (store ++ [mkNotification fresh1
          (NotifInput.mk uid "harvest_reminder" title msg pid (some crop) none none
            (some hdate))], some fresh1) := by
    simp only [emit_harvest_reminder]
    rw [hnoneH]
    rfl
  refine ⟨⟨?_, ?_, ?_, ?_⟩, ⟨?_, ?_⟩, ?_⟩
  · rw [hstep1]
  · rw [hstep1]
    simp [emit_step_reminder, List.filter_append, hnoneS, mkNotification, stepMatches]
  · rw [hstep1]
    simp [emit_step_reminder, List.filter_append, hnoneS, mkNotification, stepMatches]
  · rw [hstep1]
    simp [mkNotification, List.countP_append, List.countP_cons]
  · rw [hharv1]
  · rw [hharv1]
    simp [emit_harvest_reminder, List.filter_append, hnoneH, mkNotification, harvestMatches]
  · intro st f i
    exact ⟨rfl, rfl⟩

/-- Witness for C4: the guarded emission run twice from the empty store
with the key of `sampleReminder`, by applying the dedupe theorem. -/
theorem c4_dedupe_witness :
    (emit_step_reminder [] "id1" "u1" "Tomatoes" "Water" "2025-01-08" (some "p1")
        "Water - Tomatoes" "msg").2 = some "id1"
    ∧ (emit_step_reminder (emit_step_reminder [] "id1" "u1" "Tomatoes" "Water"
          "2025-01-08" (some "p1") "Water - Tomatoes" "msg").1 "id2" "u1" "Tomatoes"
          "Water" "2025-01-08" (some "p1") "Water - Tomatoes" "msg").2 = none
    ∧ (emit_step_reminder [] "id1" "u1" "Tomatoes" "Water" "2025-01-08" (some "p1")
          "Water - Tomatoes" "msg").1.countP (fun n => n.user_id == "u1")
        = ([] : List Notification).countP (fun n => n.user_id == "u1") + 1 := by
  have h := c4_dedupe [] "u1" "Tomatoes" "Water" "2025-01-08" "2025-01-10" "id1" "id2"
    (some "p1") "Water - Tomatoes" "msg" (by decide) (by decide)
  exact ⟨h.1.1, h.1.2.1, h.1.2.2.2⟩

/-! The user-scoped planting lookup (tracker/dynamodb_helper.py).  The
module defines `load_user_plantings` twice: the first definition
(lines 362-421) documents and implements three stages — GSI query, full
scan filtered by `user_id`, full scan filtered by `username` — while the
second (lines 423-461) implements only the first two and, being the later
binding of the same name, shadows the first.  The store's responses are
embedded as data: a query either raises or returns its first page (the
code never follows a query continuation token), and each scan is a page
list that the code drains completely. -/

/-- Outcome of the GSI query: an error, or a first page plus the pages a
paginating caller would still have to fetch. -/
inductive QueryResult where
  | err
  | ok (firstPage : List Planting) (rest : List (List Planting))
deriving DecidableEq, Repr

/-- The store responses relevant to one `load_user_plantings` call. -/
structure PlantingsSource where
  gsi : QueryResult
  scanUser : List (List Planting)
  scanUsername : List (List Planting)
deriving DecidableEq, Repr

/-- Embedding of the effective `load_user_plantings` (the second
definition, lines 423-461): a successful query returns its items
unconditionally — even an empty page — and only a raised query falls back
to the fully paginated `user_id` scan.  There is no `username` stage. -/
def load_user_plantings_model (src : PlantingsSource) : List Planting :=
  match src.gsi with
  | QueryResult.ok first _ => first
  | QueryResult.err => src.scanUser.flatten

/-- Embedding of the first, shadowed definition (lines 362-421): query
items are returned only when non-empty, then the `user_id` scan, then the
`username` scan, each scan fully paginated. -/
def load_user_plantings_first_def (src : PlantingsSource) : List Planting :=
  let viaGsi :=
    match src.gsi with
    | QueryResult.ok first _ => first
    | QueryResult.err => []
  if viaGsi.isEmpty then
    let s := src.scanUser.flatten
    if s.isEmpty then src.scanUsername.flatten else s
  else viaGsi

/-- A planting locatable only through its `username` attribute. -/
def pByUsername : Planting :=
  Planting.mk (some "p9") none (some "alice") "Mint" (some 0) []

/-- C6 evidence (code bug).  On a store where the GSI query raises, the
`user_id` scan matches nothing, and one record matches by `username`, the
effective `load_user_plantings` (second definition) reports no results,
while the shadowed first definition — whose docstring documents the
three-stage strategy the claim describes — finds the record via the
`username` scan.  Moreover a successful query with an empty first page
short-circuits the effective lookup entirely, even when scan pages hold
matching data. -/
theorem c6_username_stage_dead :
    load_user_plantings_model (PlantingsSource.mk QueryResult.err [[]] [[pByUsername]]) = []
    ∧ load_user_plantings_first_def
        (PlantingsSource.mk QueryResult.err [[]] [[pByUsername]]) = [pByUsername]
    ∧ load_user_plantings_model
        (PlantingsSource.mk (QueryResult.ok [] [[pByUsername]]) [[pByUsername]]
          [[pByUsername]]) = [] := by
  decide

/-! The notification-preference lookup
(tracker/dynamodb_helper.py, `get_user_notification_preference`,
lines 517-542). -/

/-- A users-table record as read by the preference lookup:
`notifications_enabled := none` models an absent attribute. -/
structure UserItem where
  notifications_enabled : Option Bool
deriving DecidableEq, Repr

/-- Outcome of the `get_item` by primary key: a (possibly missing) item, a
`ClientError` (caught locally, lines 531-532), or any other exception
(caught only by the outer handler, lines 540-542). -/
inductive GetItemResult where
  | ok (item : Option UserItem)
  | clientError
  | fatalError
deriving DecidableEq, Repr

/-- Outcome of the fallback scan by `user_id` (Limit=1): its items, or a
raised exception (handled by the outer handler). -/
inductive ScanResult where
  | ok (items : List UserItem)
  | raised
deriving DecidableEq, Repr

/-- The scan stage of lines 534-539: a raised scan or no items defaults to
`true`; otherwise the first item's attribute with default `true`. -/
def prefScanStage (sc : ScanResult) : Bool :=
  match sc with
  | ScanResult.raised => true
  | ScanResult.ok [] => true
  | ScanResult.ok (it :: _) => it.notifications_enabled.getD true

/-- Embedding of `get_user_notification_preference`: the PK `get_item`
answers only when it yields an item that carries the attribute; otherwise
the scan stage decides; every raised lookup yields `true`. -/
def get_user_notification_preference_model (g : GetItemResult) (sc : ScanResult) : Bool :=
  match g with
  | GetItemResult.fatalError => true
  | GetItemResult.clientError => prefScanStage sc
  | GetItemResult.ok none => prefScanStage sc
  | GetItemResult.ok (some it) =>
    match it.notifications_enabled with
    | some b => b
    | none => prefScanStage sc

/-- C10 (confirmed).  The preference lookup fails open: it returns `true`
when the record is absent from both stages, when the attribute is unset
everywhere it looks, and when a lookup raises; and it returns `false` only
when a stage actually succeeded and delivered a stored `false`. -/
theorem c10_fails_open (g : GetItemResult) (sc : ScanResult) :
    (g = GetItemResult.ok none → sc = ScanResult.ok [] →
      get_user_notification_preference_model g sc = true)
    ∧ (∀ it, g = GetItemResult.ok (some it) → it.notifications_enabled = none →
        (sc = ScanResult.ok [] ∨ sc = ScanResult.raised
          ∨ ∃ it2 tl, sc = ScanResult.ok (it2 :: tl) ∧ it2.notifications_enabled = none) →
        get_user_notification_preference_model g sc = true)
    ∧ (g = GetItemResult.fatalError → get_user_notification_preference_model g sc = true)
    ∧ ((g = GetItemResult.clientError ∨ g = GetItemResult.ok none) →
        sc = ScanResult.raised → get_user_notification_preference_model g sc = true)
    ∧ (get_user_notification_preference_model g sc = false →
        (∃ it, g = GetItemResult.ok (some it) ∧ it.notifications_enabled = some false)
          ∨ (∃ it tl, sc = ScanResult.ok (it :: tl)
              ∧ it.notifications_enabled = some false)) := by
  refine ⟨?_, ?_, ?_, ?_, ?_⟩
  · intro hg hsc
    subst hg
    subst hsc
    rfl
  · intro it hg hattr hsc
    subst hg
    simp only [get_user_notification_preference_model, hattr]
    rcases hsc with h | h | ⟨it2, tl, h, h2⟩ <;> subst h <;> simp [prefScanStage, *]
  · intro hg
    subst hg
    rfl
  · intro hg hsc
    subst hsc
    rcases hg with h | h <;> subst h <;> rfl
  · intro hfalse
    cases g with
    | fatalError => cases hfalse
    | clientError =>
      right
      simp only [get_user_notification_preference_model] at hfalse
      cases sc with
      | raised => cases hfalse
      | ok items =>
        cases items with
        | nil => cases hfalse
        | cons it tl =>
          cases hb : it.notifications_enabled with
          | none => rw [prefScanStage, hb] at hfalse; cases hfalse
          | some b =>
            rw [prefScanStage, hb] at hfalse
            simp only [Option.getD_some] at hfalse
            exact ⟨it, tl, rfl, by rw [hb, hfalse]⟩
    | ok item =>
      cases item with
      | none =>
        right
        simp only [get_user_notification_preference_model] at hfalse
        cases sc with
        | raised => cases hfalse
        | ok items =>
          cases items with
          | nil => cases hfalse
          | cons it tl =>
            cases hb : it.notifications_enabled with
            | none => rw [prefScanStage, hb] at hfalse; cases hfalse
            | some b =>
              rw [prefScanStage, hb] at hfalse
              simp only [Option.getD_some] at hfalse
              exact ⟨it, tl, rfl, by rw [hb, hfalse]⟩
      | some it =>
        simp only [get_user_notification_preference_model] at hfalse
        cases hb : it.notifications_enabled with
        | some b =>
          rw [hb] at hfalse
          exact Or.inl ⟨it, rfl, by rw [hb]; exact congrArg some hfalse⟩
        | none =>
          right
          rw [hb] at hfalse
          cases sc with
          | raised => cases hfalse
          | ok items =>
            cases items with
            | nil => cases hfalse
            | cons it2 tl =>
              cases hb2 : it2.notifications_enabled with
              | none => rw [prefScanStage, hb2] at hfalse; cases hfalse
              | some b =>
                rw [prefScanStage, hb2] at hfalse
                simp only [Option.getD_some] at hfalse
                exact ⟨it2, tl, rfl, by rw [hb2, hfalse]⟩

/-- Witness for C10: a missing record, a fatally failing lookup, an unset
attribute, and a stored `false` that is honored, each via the fail-open
theorem at concrete store responses. -/
theorem c10_fails_open_witness :
    get_user_notification_preference_model (GetItemResult.ok none) (ScanResult.ok []) = true
    ∧ get_user_notification_preference_model GetItemResult.fatalError ScanResult.raised = true
    ∧ get_user_notification_preference_model
        (GetItemResult.ok (some (UserItem.mk none))) (ScanResult.ok [UserItem.mk none]) = true
    ∧ ((∃ it, GetItemResult.ok (some (UserItem.mk (some false))) = GetItemResult.ok (some it)
          ∧ it.notifications_enabled = some false)
        ∨ (∃ it tl, ScanResult.raised = ScanResult.ok (it :: tl)
            ∧ it.notifications_enabled = some false)) :=
  ⟨(c10_fails_open (GetItemResult.ok none) (ScanResult.ok [])).1 rfl rfl,
    (c10_fails_open GetItemResult.fatalError ScanResult.raised).2.2.1 rfl,
    (c10_fails_open (GetItemResult.ok (some (UserItem.mk none)))
        (ScanResult.ok [UserItem.mk none])).2.1 (UserItem.mk none) rfl rfl
      (Or.inr (Or.inr ⟨UserItem.mk none, [], rfl, rfl⟩)),
    (c10_fails_open (GetItemResult.ok (some (UserItem.mk (some false))))
        ScanResult.raised).2.2.2.2 rfl⟩

/-! The digest batch job (scripts/lambda_daily_notifications.py,
`lambda_handler`, lines 432-513).  Per user the handler checks, in order:
a truthy identifier (`PK_NAME`, `user_id` or `username`), the coerced
notification preference, a truthy email; a failing check counts the user
as skipped.  Then it fetches plantings (`get_user_plantings` catches every
exception internally and returns `[]`, so its guarded branch cannot fire),
builds the digest and publishes it: a publish failure counts the user as
failed and the scan continues.  The pacing check
`if i % BATCH_SIZE == 0: time.sleep(...)` sits at the end of the loop body
(lines 499-502, enumeration starting at 1), so it runs only on iterations
that reach the publish step: every skip branch and the plantings-fetch
guard end in `continue` and bypass the pause.  The fetch guard itself is
unreachable because `get_user_plantings` catches every exception and
returns `[]`, so an iteration reaches the pause exactly when its outcome
is Sent or Failed.  The embedding assumes a configured SNS topic
(`publish_to_sns` raises on a missing topic before any user is
processed). -/

/-- The stored `notifications_enabled` attribute as the handler may see
it: absent, a boolean, or a string. -/
inductive PrefValue where
  | missing
  | asBool (b : Bool)
  | asStr (s : String)
deriving DecidableEq, Repr

/-- Embedding of `check_user_notification_preference` (lines 378-387):
absent defaults to `true`; strings are accepted when they lower-case to
`true`, `1` or `yes`. -/
def check_user_notification_preference (p : PrefValue) : Bool :=
  match p with
  | PrefValue.missing => true
  | PrefValue.asBool b => b
  | PrefValue.asStr s => pyLower s == "true" || pyLower s == "1" || pyLower s == "yes"

/-- One scanned user, together with the pub/sub collaborator's response to
that user's digest publish.  `user_id := none` models a record whose three
identifier attributes are all falsy; `email := none` a missing or empty
email. -/
structure DigestUser where
  user_id : Option String
  pref : PrefValue
  email : Option String
  publishOk : Bool
deriving DecidableEq, Repr

/-- The per-user outcome of one loop iteration. -/
inductive Outcome where
  | Sent
  | Skipped
  | Failed
deriving DecidableEq, Repr

/-- The outcome the handler assigns to a user (lines 453-497), following
the order of the checks in the source. -/
def outcomeOf (u : DigestUser) : Outcome :=
  if u.user_id.isNone then Outcome.Skipped
  else if !(check_user_notification_preference u.pref) then Outcome.Skipped
  else if u.email.isNone then Outcome.Skipped
  else if u.publishOk then Outcome.Sent else Outcome.Failed

/-- The aggregate result of a digest run (`total`, `sent`, `skipped`,
`failed` are returned by the handler; `pauses` counts the pacing sleeps of
lines 500-502). -/
structure DigestCounts where
  total : Nat
  sent : Nat
  skipped : Nat
  failed : Nat
  pauses : Nat
deriving DecidableEq, Repr

/-- The user loop of `lambda_handler`, threading the counters; `i` is the
1-based enumeration index of line 453.  The pacing check runs only when
the iteration reached the end of the loop body — a skipped user
`continue`s past it (lines 460, 466, 473), so the pause fires exactly on
non-skipped iterations whose index is a multiple of the batch size. -/
def digestGo (batchSize : Nat) : Nat → List DigestUser → DigestCounts → DigestCounts
  | _, [], acc => acc
  | i, u :: rest, acc =>
    let acc1 :=
      match outcomeOf u with
      | Outcome.Sent => { acc with sent := acc.sent + 1 }
      | Outcome.Skipped => { acc with skipped := acc.skipped + 1 }
      | Outcome.Failed => { acc with failed := acc.failed + 1 }
    let acc2 :=
      if !(outcomeOf u == Outcome.Skipped) && i % batchSize == 0 then
        { acc1 with pauses := acc1.pauses + 1 }
      else acc1
    digestGo batchSize (i + 1) rest acc2

/-- Embedding of `lambda_handler` after a successful user scan: all
counters start at zero, `total` is the scanned user count, enumeration
starts at 1. -/
def lambda_handler_model (batchSize : Nat) (users : List DigestUser) : DigestCounts :=
  digestGo batchSize 1 users (DigestCounts.mk users.length 0 0 0 0)

/-- Number of batch boundaries (indices divisible by the batch size) in a
window of `len` iterations starting at index `i` — the pauses a run would
make if every iteration reached the pacing check. -/
def pausesIn (batchSize : Nat) : Nat → Nat → Nat
  | _, 0 => 0
  | i, len + 1 => (if i % batchSize == 0 then 1 else 0) + pausesIn batchSize (i + 1) len

/-- Number of pacing pauses the loop actually makes over `us` starting at
index `i`: a pause needs both a batch-boundary index and an iteration that
was not skipped (a skip `continue`s past the check). -/
def pausesRun (batchSize : Nat) : Nat → List DigestUser → Nat
  | _, [] => 0
  | i, u :: rest =>
    (if !(outcomeOf u == Outcome.Skipped) && i % batchSize == 0 then 1 else 0)
      + pausesRun batchSize (i + 1) rest

/-- The loop adds, to each starting counter, the number of users of each
outcome and the pauses actually taken over its window. -/
theorem digestGo_spec (batchSize : Nat) (us : List DigestUser) :
    ∀ (i : Nat) (acc : DigestCounts),
    digestGo batchSize i us acc = DigestCounts.mk acc.total
      (acc.sent + us.countP (fun u => outcomeOf u == Outcome.Sent))
      (acc.skipped + us.countP (fun u => outcomeOf u == Outcome.Skipped))
      (acc.failed + us.countP (fun u => outcomeOf u == Outcome.Failed))
      (acc.pauses + pausesRun batchSize i us) := by
  induction us with
  | nil =>
    intro i acc
    simp [digestGo, pausesRun]
  | cons u rest ih =>
    intro i acc
    show digestGo batchSize (i + 1) rest _ = _
    rw [ih]
    rcases hout : outcomeOf u <;>
      rcases hp : i % batchSize == 0 <;>
        simp [hout, hp, List.countP_cons, pausesRun, List.length_cons] <;>
          omega

/-- Successive-index division step: going from `j` to `j + 1` adds one to
`⌊j / b⌋` exactly when `b` divides `j + 1`. -/
theorem div_succ_step (b j : Nat) :
    (j + 1) / b = j / b + (if (j + 1) % b == 0 then 1 else 0) := by
  rcases Nat.eq_zero_or_pos b with hb | hb
  · subst hb
    simp
  · rw [Nat.succ_div]
    congr 1
    by_cases h : b ∣ j + 1
    · have hm : (j + 1) % b = 0 := Nat.mod_eq_zero_of_dvd h
      simp [h, hm]
    · have hm : ¬((j + 1) % b = 0) := fun hc => h (Nat.dvd_of_mod_eq_zero hc)
      simp [h, hm]

/-- Starting at index `j + 1`, a window of `len` iterations pauses
`(j + len) / b - j / b` times. -/
theorem pausesIn_eq_div (b : Nat) (len : Nat) :
    ∀ j : Nat, pausesIn b (j + 1) len = (j + len) / b - j / b := by
  induction len with
  | zero =>
    intro j
    simp [pausesIn]
  | succ n ih =>
    intro j
    have hstep := div_succ_step b j
    have hmono1 : j / b ≤ (j + 1) / b := Nat.div_le_div_right (by omega)
    have hmono2 : (j + 1) / b ≤ (j + 1 + n) / b := Nat.div_le_div_right (by omega)
    have hrec := ih (j + 1)
    show (if (j + 1) % b == 0 then 1 else 0) + pausesIn b (j + 1 + 1) n = _
    rw [hrec]
    have harr : j + 1 + n = j + (n + 1) := by omega
    rw [harr] at hmono2 hrec ⊢
    rcases hp : (j + 1) % b == 0 <;> rw [hp] at hstep <;> simp at hstep ⊢ <;> omega

/-- Batch boundaries of a full run with 1-based enumeration: one per
completed batch of `b` iterations. -/
theorem pausesIn_from_one (b n : Nat) : pausesIn b 1 n = n / b := by
  have h := pausesIn_eq_div b n 0
  simpa using h

/-- When no iteration is skipped, every iteration reaches the pacing
check, so the run pauses exactly at the batch boundaries. -/
theorem pausesRun_of_none_skipped (b : Nat) (us : List DigestUser) :
    ∀ i : Nat, (∀ u ∈ us, outcomeOf u ≠ Outcome.Skipped) →
    pausesRun b i us = pausesIn b i us.length := by
  induction us with
  | nil =>
    intro i _
    rfl
  | cons u rest ih =>
    intro i h
    have hu : (outcomeOf u == Outcome.Skipped) = false := by
      simpa using h u (List.mem_cons_self u rest)
    simp only [pausesRun, pausesIn, List.length_cons, hu, Bool.not_false, Bool.true_and]
    rw [ih (i + 1) (fun v hv => h v (List.mem_cons_of_mem u hv))]

/-- When every iteration is skipped, the run never reaches the pacing
check and makes no pause. -/
theorem pausesRun_of_all_skipped (b : Nat) (us : List DigestUser) :
    ∀ i : Nat, (∀ u ∈ us, outcomeOf u = Outcome.Skipped) →
    pausesRun b i us = 0 := by
  induction us with
  | nil =>
    intro i _
    rfl
  | cons u rest ih =>
    intro i h
    have hu : (outcomeOf u == Outcome.Skipped) = true := by
      simpa using h u (List.mem_cons_self u rest)
    have hz : (if (!(outcomeOf u == Outcome.Skipped) && i % b == 0) = true then 1 else 0)
        = 0 := by
      rw [hu]
      simp
    show (if (!(outcomeOf u == Outcome.Skipped) && i % b == 0) = true then 1 else 0)
        + pausesRun b (i + 1) rest = 0
    rw [hz, Nat.zero_add]
    exact ih (i + 1) (fun v hv => h v (List.mem_cons_of_mem u hv))

/-- The run never pauses more often than the batch-boundary schedule. -/
theorem pausesRun_le_pausesIn (b : Nat) (us : List DigestUser) :
    ∀ i : Nat, pausesRun b i us ≤ pausesIn b i us.length := by
  induction us with
  | nil =>
    intro i
    exact Nat.le_refl 0
  | cons u rest ih =>
    intro i
    have hrec := ih (i + 1)
    have h1 : (if (!(outcomeOf u == Outcome.Skipped) && i % b == 0) = true then 1 else 0)
        ≤ (if (i % b == 0) = true then 1 else 0) := by
      rcases hp : i % b == 0
      · simp [hp]
      · simp [hp]
        split <;> omega
    show (if (!(outcomeOf u == Outcome.Skipped) && i % b == 0) = true then 1 else 0)
        + pausesRun b (i + 1) rest
      ≤ (if (i % b == 0) = true then 1 else 0) + pausesIn b (i + 1) rest.length
    omega

/-- Every user receives exactly one of the three outcomes. -/
theorem outcome_partition (us : List DigestUser) :
    us.countP (fun u => outcomeOf u == Outcome.Sent)
      + us.countP (fun u => outcomeOf u == Outcome.Skipped)
      + us.countP (fun u => outcomeOf u == Outcome.Failed) = us.length := by
  induction us with
  | nil => rfl
  | cons u rest ih =>
    simp only [List.countP_cons, List.length_cons]
    rcases h : outcomeOf u <;> simp [h] <;> omega

/-- C7 (amended).  For every scanned user set, the handler with the
default batch size 25 returns `total` equal to the number of users and
counts every user exactly once (`sent + skipped + failed = total`); a user
with no email or a disabled preference is counted skipped, never failed; a
publish failure makes the user failed while the remaining users are still
counted.  The pacing pause fires only on iterations that reach the end of
the loop body: a run in which no user is skipped pauses once per completed
batch of 25, a run in which every user is skipped never pauses (the skip
branches `continue` past the check), and no run pauses more often than
once per completed batch of 25. -/
theorem c7_digest_scheduler (users : List DigestUser) :
    (lambda_handler_model 25 users).total = users.length
    ∧ (lambda_handler_model 25 users).sent
        = users.countP (fun u => outcomeOf u == Outcome.Sent)
    ∧ (lambda_handler_model 25 users).skipped
        = users.countP (fun u => outcomeOf u == Outcome.Skipped)
    ∧ (lambda_handler_model 25 users).failed
        = users.countP (fun u => outcomeOf u == Outcome.Failed)
    ∧ (lambda_handler_model 25 users).sent + (lambda_handler_model 25 users).skipped
        + (lambda_handler_model 25 users).failed = (lambda_handler_model 25 users).total
    ∧ ((∀ u ∈ users, outcomeOf u ≠ Outcome.Skipped) →
        (lambda_handler_model 25 users).pauses = users.length / 25)
    ∧ ((∀ u ∈ users, outcomeOf u = Outcome.Skipped) →
        (lambda_handler_model 25 users).pauses = 0)
    ∧ (lambda_handler_model 25 users).pauses ≤ users.length / 25
    ∧ (∀ u : DigestUser, u.email = none ∨ check_user_notification_preference u.pref = false →
        outcomeOf u = Outcome.Skipped)
    ∧ (∀ u : DigestUser, u.user_id ≠ none → check_user_notification_preference u.pref = true →
        u.email ≠ none → u.publishOk = false → outcomeOf u = Outcome.Failed) := by
  have hrun := digestGo_spec 25 users 1 (DigestCounts.mk users.length 0 0 0 0)
  have hpart := outcome_partition users
  refine ⟨?_, ?_, ?_, ?_, ?_, ?_, ?_, ?_, ?_, ?_⟩
  · rw [lambda_handler_model, hrun]
  · rw [lambda_handler_model, hrun]
    simp
  · rw [lambda_handler_model, hrun]
    simp
  · rw [lambda_handler_model, hrun]
    simp
  · rw [lambda_handler_model, hrun]
    simpa using hpart
  · intro h
    rw [lambda_handler_model, hrun]
    show 0 + pausesRun 25 1 users = users.length / 25
    rw [Nat.zero_add, pausesRun_of_none_skipped 25 users 1 h, pausesIn_from_one]
  · intro h
    rw [lambda_handler_model, hrun]
    show 0 + pausesRun 25 1 users = 0
    rw [Nat.zero_add, pausesRun_of_all_skipped 25 users 1 h]
  · rw [lambda_handler_model, hrun]
    show 0 + pausesRun 25 1 users ≤ users.length / 25
    rw [Nat.zero_add, ← pausesIn_from_one 25 users.length]
    exact pausesRun_le_pausesIn 25 users 1
  · intro u hu
    rcases hu with he | hp
    · unfold outcomeOf
      rcases hid : u.user_id.isNone <;>
        rcases hc : check_user_notification_preference u.pref <;>
          simp [hid, hc, he]
    · unfold outcomeOf
      rcases hid : u.user_id.isNone <;> simp [hid, hp]
  · intro u hid hp he hpub
    unfold outcomeOf
    rcases hide : u.user_id with _ | v
    · exact absurd hide hid
    · rcases hee : u.email with _ | w
      · exact absurd hee he
      · simp [hide, hp, hee, hpub]

/-- A user whose digest was published. -/
def uSent : DigestUser := DigestUser.mk (some "u1") PrefValue.missing (some "a@x") true

/-- A user without an email address. -/
def uNoEmail : DigestUser := DigestUser.mk (some "u2") (PrefValue.asBool true) none true

/-- A user who disabled notifications (string-typed attribute). -/
def uOptedOut : DigestUser := DigestUser.mk (some "u3") (PrefValue.asStr "False") (some "b@x") true

/-- A user whose publish failed. -/
def uPubFail : DigestUser := DigestUser.mk (some "u4") PrefValue.missing (some "c@x") false

/-- Counterexample to C7 as stated: a batch of twenty-five consecutive
users without an email address is entirely skipped, and every skip
`continue`s past the pacing check at the end of the loop body, so the run
makes no pause at all where the claim demands one after the batch. -/
theorem c7_counterexample :
    (lambda_handler_model 25 (List.replicate 25 uNoEmail)).total = 25
    ∧ (lambda_handler_model 25 (List.replicate 25 uNoEmail)).skipped = 25
    ∧ (lambda_handler_model 25 (List.replicate 25 uNoEmail)).pauses = 0 := by
  decide

/-- Witness for C7: a four-user run (one sent, one without email, one
opted out, one publish failure) via the scheduler theorem, plus the pacing
clauses applied to a batch of 25 publishing users (one pause) and a batch
of 25 skipped users (no pause). -/
theorem c7_digest_scheduler_witness :
    outcomeOf uNoEmail = Outcome.Skipped
    ∧ outcomeOf uOptedOut = Outcome.Skipped
    ∧ outcomeOf uPubFail = Outcome.Failed
    ∧ (lambda_handler_model 25 [uSent, uNoEmail, uOptedOut, uPubFail]).sent
        + (lambda_handler_model 25 [uSent, uNoEmail, uOptedOut, uPubFail]).skipped
        + (lambda_handler_model 25 [uSent, uNoEmail, uOptedOut, uPubFail]).failed
        = (lambda_handler_model 25 [uSent, uNoEmail, uOptedOut, uPubFail]).total
    ∧ (lambda_handler_model 25 (List.replicate 25 uSent)).pauses = 1
    ∧ (lambda_handler_model 25 (List.replicate 25 uNoEmail)).pauses = 0 :=
  ⟨(c7_digest_scheduler []).2.2.2.2.2.2.2.2.1 uNoEmail (Or.inl rfl),
    (c7_digest_scheduler []).2.2.2.2.2.2.2.2.1 uOptedOut (Or.inr (by decide)),
    (c7_digest_scheduler []).2.2.2.2.2.2.2.2.2 uPubFail (by decide) (by decide) (by decide)
      rfl,
    (c7_digest_scheduler [uSent, uNoEmail, uOptedOut, uPubFail]).2.2.2.2.1,
    by
      have h := (c7_digest_scheduler (List.replicate 25 uSent)).2.2.2.2.2.1 (by decide)
      simpa using h,
    (c7_digest_scheduler (List.replicate 25 uNoEmail)).2.2.2.2.2.2.1 (by decide)⟩

/-! Which consumers regenerate the plan (claim C8).  The views pipeline
(tracker/views.py lines 346-418) force-regenerates the plan from
`crop_name` and `planting_date` on its success path, keeping the stored
plan only when those fields are missing (or on an exception, unreachable
in the pure embedding).  The digest lambda's `calculate_planting_plan`
uses the stored plan whenever it is non-empty with dated tasks, and the
reminder command (management/commands/send_harvest_reminders.py
lines 81-100) reads `planting[plan]` directly and never regenerates. -/

/-- The plan the `index` view ends up attaching to a planting
(views.py lines 346-418): with a non-empty stripped crop name and a
parseable date, the plan is always `calculate_plan` of the normalized
name — the stored plan is ignored; when the normalized crop is not in the
knowledge base the plan is emptied and the record skipped; without a crop
name or date the old stored plan is kept. -/
def views_plan (pl : Planting) (kb : KB) : List PlanTask :=
  let raw := pyStrip pl.crop_name
  match pl.planting_date with
  | none => pl.plan
  | some d =>
    if raw == "" then pl.plan
    else
      let crop := normalize_crop_name raw kb
      if (lookupKB kb crop).isSome then calculate_plan crop d kb
      else []

/-- The reminder command's per-planting task selection (lines 88-100): the
tasks of the *stored* plan due exactly on the target date. -/
def reminderTasksDue (pl : Planting) (target : Int) : List PlanTask :=
  pl.plan.filter (fun t => t.due_date == some target)

/-- C8 (amended).  The views pipeline regenerates the plan whenever
crop name and planting date are present — its result does not depend on
the stored plan; but the digest lambda returns the stored plan unchanged
(filtered to its dated entries) whenever it is non-empty, and the reminder
command's selection depends only on the stored plan, ignoring crop name
and planting date entirely. -/
theorem c8_plan_regeneration (kb : KB) :
    (∀ pl : Planting, ∀ d : Int, ∀ oldPlan : List PlanTask,
      pl.planting_date = some d → pyStrip pl.crop_name ≠ "" →
      views_plan { pl with plan := oldPlan } kb = views_plan { pl with plan := [] } kb)
    ∧ (∀ pl : Planting, pl.planting_date.isSome = true →
        pl.plan.filter (fun t => t.due_date.isSome) ≠ [] →
        calculate_planting_plan pl kb = pl.plan.filter (fun t => t.due_date.isSome))
    ∧ (∀ pl : Planting, ∀ target : Int, ∀ c : String, ∀ pd : Option Int,
        reminderTasksDue { pl with crop_name := c, planting_date := pd } target
          = reminderTasksDue pl target) := by
  refine ⟨?_, ?_, ?_⟩
  · intro pl d oldPlan hdate hraw
    have hrawF : (pyStrip pl.crop_name == "") = false := by
      simpa using hraw
    simp only [views_plan]
    rw [show ({ pl with plan := oldPlan } : Planting).planting_date = some d from hdate]
    simp [hrawF]
  · intro pl hdate hkept
    have hplanNe : pl.plan.isEmpty = false := by
      cases hp : pl.plan with
      | nil => exact absurd (by rw [hp]; rfl) hkept
      | cons a tl => rfl
    have hkeptB : (pl.plan.filter (fun t => t.due_date.isSome)).isEmpty = false := by
      cases hk : pl.plan.filter (fun t => t.due_date.isSome) with
      | nil => exact absurd hk hkept
      | cons a tl => rfl
    simp only [calculate_planting_plan]
    rw [hplanNe, hdate, hkeptB]
    rfl
  · intro pl target c pd
    rfl

/-- A stored planting of Tomatoes carrying a stale bogus plan. -/
def pStaleC8 : Planting :=
  Planting.mk (some "p1") (some "u1") none "Tomatoes" (some 0)
    [PlanTask.mk "Bogus" (some 999) false]

/-- Counterexample to C8 as stated: the digest lambda returns the bogus
stored plan unchanged for this planting, which differs from the plan it
would regenerate from the crop name and planting date (the same planting
with the stored plan cleared). -/
theorem c8_counterexample :
    calculate_planting_plan pStaleC8 cropKB = [PlanTask.mk "Bogus" (some 999) false]
    ∧ calculate_planting_plan
        (Planting.mk (some "p1") (some "u1") none "Tomatoes" (some 0) []) cropKB
      ≠ [PlanTask.mk "Bogus" (some 999) false] := by
  decide

/-- Witness for C8: the regeneration theorem applied to the stale Tomatoes
planting — the views plan ignores the bogus stored plan while the lambda
returns it. -/
theorem c8_plan_regeneration_witness :
    pStaleC8.planting_date = some 0
    ∧ pyStrip pStaleC8.crop_name ≠ ""
    ∧ views_plan { pStaleC8 with plan := [PlanTask.mk "Bogus" (some 999) false] } cropKB
        = views_plan { pStaleC8 with plan := [] } cropKB
    ∧ calculate_planting_plan pStaleC8 cropKB
        = pStaleC8.plan.filter (fun t => t.due_date.isSome) :=
  ⟨rfl, by decide,
    (c8_plan_regeneration cropKB).1 pStaleC8 0 [PlanTask.mk "Bogus" (some 999) false]
      rfl (by decide),
    (c8_plan_regeneration cropKB).2.1 pStaleC8 rfl (by decide)⟩

end SmartHarvester
